import Mathlib

/-!
Shallow embedding of the ResearchMate multi-source paper aggregation /
deduplication pipeline (`src/components/unified_fetcher.py`) and the
trend / gap analysis engine (`src/components/trend_monitor.py`).

Papers are Python dicts; we model the fields the embedded code reads.
`Option String` fields use `none` for an absent key or a `None` value
(the code normalises both to the empty string before use).  Year values
that arrive as decimal strings are modelled as already converted to
integers (the code converts with `int(...)` and skips unparsable ones,
which we model as `none`).  String operations are implemented here over
character lists so that they evaluate inside the kernel; on the ASCII
data these claims concern they agree with Python's `str` methods.
Python float arithmetic in the analytics is modelled exactly over `ℚ`.
-/

structure Paper where
  title : Option String
  authors : List String
  abstract : Option String
  published_date : String
  year : Option Int
  doi : Option String
  arxiv_id : Option String
  pmid : Option String
  source : String
deriving Repr, DecidableEq

/-- Python `paper.get(k) or ''` / `if x is None: x = ''` normalisation. -/
def strOfOpt (o : Option String) : String := o.getD ""

/-- Python regex class `\w` (word character) restricted to ASCII input. -/
def isWordChar (c : Char) : Bool := c.isAlphanum || c = '_'

/-- The whitespace characters Python's `str.strip` / `str.split` /
regex `\s` recognise on ASCII input. -/
def isSpaceChar (c : Char) : Bool :=
  c = ' ' || c = '\t' || c = '\n' || c = '\r' || c = '\x0b' || c = '\x0c'

/-- Python `str.lower` (ASCII range). -/
def pyLower (s : String) : String := String.mk (s.toList.map Char.toLower)

/-- Python `str.strip`: drop leading and trailing whitespace. -/
def pyStrip (s : String) : String :=
  String.mk (((s.toList.dropWhile isSpaceChar).reverse.dropWhile isSpaceChar).reverse)

/-- Python `str.split()` (no separator): whitespace-run splitting with
no empty words.  The accumulator holds the current word reversed. -/
def wordsAux : List Char → List Char → List (List Char)
  | [], acc => if acc = [] then [] else [acc.reverse]
  | c :: rest, acc =>
    if isSpaceChar c then
      if acc = [] then wordsAux rest [] else acc.reverse :: wordsAux rest []
    else wordsAux rest (c :: acc)

/-- `' '.join(words)` on character lists. -/
def joinSpace : List (List Char) → List Char
  | [] => []
  | [w] => w
  | w :: rest => w ++ ' ' :: joinSpace rest

/-- `re.sub(r'[^\w\s]', '', title)` followed by `' '.join(title.split())`:
drop every character that is neither a word character nor whitespace,
then collapse whitespace runs to single spaces and trim the ends
(`unified_fetcher.py` lines 477–478). -/
def cleanTitle (t : String) : String :=
  let kept := t.toList.filter (fun c => isWordChar c || isSpaceChar c)
  String.mk (joinSpace (wordsAux kept []))

/-- The identifier tokens `_deduplicate_papers` builds for one paper
(`unified_fetcher.py` lines 446–479): `doi:`/`arxiv:` stripped and
lower-cased, `pmid:` stripped, and the cleaned title unless it is empty
or exactly `no title` after stripping and lower-casing. -/
def identifiers (p : Paper) : List String :=
  let doi := pyStrip (strOfOpt p.doi)
  let arxivId := pyStrip (strOfOpt p.arxiv_id)
  let pmid := pyStrip (strOfOpt p.pmid)
  let title := pyLower (pyStrip (strOfOpt p.title))
  (if doi ≠ "" then ["doi:" ++ pyLower doi] else []) ++
  (if arxivId ≠ "" then ["arxiv:" ++ pyLower arxivId] else []) ++
  (if pmid ≠ "" then ["pmid:" ++ pmid] else []) ++
  (if title ≠ "" ∧ title ≠ "no title" then ["title:" ++ cleanTitle title] else [])

/-- The loop of `_deduplicate_papers` (lines 443–491): carry the `seen`
set (modelled as a list queried only by membership) and emit a paper iff
none of its identifiers was seen, adding all its identifiers when kept.
Returns (final seen set, kept papers). -/
def dedupGo (seen : List String) : List Paper → List String × List Paper
  | [] => (seen, [])
  | p :: rest =>
    let ids := identifiers p
    if ids.any (fun i => decide (i ∈ seen)) then
      dedupGo seen rest
    else
      let out := dedupGo (seen ++ ids) rest
      (out.1, p :: out.2)

/-- `UnifiedPaperFetcher._deduplicate_papers`. -/
def deduplicate_papers (papers : List Paper) : List Paper :=
  (dedupGo [] papers).2

/-- A paper record with every optional field absent: it produces no
deduplication identifier tokens at all. -/
def blankPaper : Paper :=
  { title := none, authors := [], abstract := none, published_date := "", year := none,
    doi := none, arxiv_id := none, pmid := none, source := "" }

/-- A minimal record carrying only a title and a DOI, as the source
adapters emit. -/
def mkDoiPaper (t d src : String) : Paper :=
  { title := some t, authors := [], abstract := none, published_date := "", year := none,
    doi := some d, arxiv_id := none, pmid := none, source := src }

/-! ### `UnifiedPaperFetcher.search_papers` (lines 52–108)

The four source adapters perform HTTP I/O; `search_papers` is modelled
as a function of an abstract `fetch` argument giving, per source name
and per-source result budget, either the adapter's raw paper list or an
error (a raised exception).  The dispatch on the source name, the
skipping of unknown names, the `try/except ... continue` around each
adapter, the deduplication, the optional date sort and the final
truncation follow the Python loop.  Python raises `ZeroDivisionError`
computing `max_results // len(sources)` when `sources` is `[]`, modelled
by the error branch. -/

def knownSources : List String := ["arxiv", "semantic_scholar", "crossref", "pubmed"]

/-- What one iteration of the source loop contributes to `all_papers`:
nothing for an unknown source name, nothing when the adapter raises,
otherwise the adapter's list. -/
def sourceResults (fetch : String → Nat → Except String (List Paper)) (n : Nat)
    (s : String) : List Paper :=
  if knownSources.contains s then
    match fetch s n with
    | Except.ok ps => ps
    | Except.error _ => []
  else []

/-- The source loop: `all_papers.extend(papers)` per source, in order. -/
def gatherPapers (fetch : String → Nat → Except String (List Paper)) (n : Nat) :
    List String → List Paper
  | [] => []
  | s :: rest => sourceResults fetch n s ++ gatherPapers fetch n rest

/-- Stable descending insertion by `published_date`, matching Python's
stable `list.sort(key=..., reverse=True)`: a paper is inserted after
every earlier paper whose key is ≥ its own. -/
def insertDateDesc (p : Paper) : List Paper → List Paper
  | [] => [p]
  | q :: rest =>
    if p.published_date ≤ q.published_date then q :: insertDateDesc p rest
    else p :: q :: rest

/-- `unique_papers.sort(key=lambda x: x.get('published_date',''), reverse=True)`. -/
def sortDateDesc (l : List Paper) : List Paper :=
  l.foldl (fun acc p => insertDateDesc p acc) []

/-- `UnifiedPaperFetcher.search_papers`. -/
def search_papers (query : String) (maxResults : Nat) (sources : List String)
    (sortBy : String) (fetch : String → Nat → Except String (List Paper)) :
    Except String (List Paper) :=
  if sources.length = 0 then
    Except.error "ZeroDivisionError: integer division or modulo by zero"
  else
    let resultsPerSource := max 1 (maxResults / sources.length)
    let allPapers := gatherPapers fetch resultsPerSource sources
    let uniquePapers := deduplicate_papers allPapers
    let sorted := if sortBy = "date" then sortDateDesc uniquePapers else uniquePapers
    Except.ok (sorted.take maxResults)

/-- Replace the outcome of one named source adapter, leaving the rest. -/
def overrideFetch (fetch : String → Nat → Except String (List Paper)) (s : String)
    (r : Nat → Except String (List Paper)) : String → Nat → Except String (List Paper) :=
  fun t n => if t = s then r n else fetch t n

/-- `Except.ok`-ness of a result, i.e. "the call did not raise". -/
def isOkE {α : Type} : Except String α → Bool
  | Except.ok _ => true
  | Except.error _ => false

/-- A concrete fetch outcome in which the `arxiv` adapter always raises
and the `crossref` adapter returns one paper. -/
def fetchArxivDown : String → Nat → Except String (List Paper) :=
  fun t _ =>
    if t = "arxiv" then Except.error "ConnectionError"
    else Except.ok [mkDoiPaper "A" "10.1/x" "Crossref"]

/-! ### `AdvancedTrendMonitor.analyze_temporal_trends` (trend_monitor.py lines 54–157)

Only the fields the claims touch are carried in the result: the
year→count publication trend and the growth analysis.  Keyword
evolution and emerging/declining topic sets are not modelled. -/

/-- The year bucketing filter (lines 65–81): skip falsy years (`None`,
`0`), then skip years outside 1990–2030. -/
def validYear (p : Paper) : Option Int :=
  match p.year with
  | none => none
  | some y =>
    if y = 0 then none
    else if y < 1990 then none
    else if y > 2030 then none
    else some y

/-- All valid years of the corpus, with multiplicity. -/
def yearList (papers : List Paper) : List Int := papers.filterMap validYear

/-- `year_counts[y]`. -/
def yearCount (papers : List Paper) (y : Int) : Nat := (yearList papers).count y

/-- Ascending insertion for integers. -/
def insertAscInt (y : Int) : List Int → List Int
  | [] => [y]
  | z :: rest => if y ≤ z then y :: z :: rest else z :: insertAscInt y rest

/-- Ascending insertion sort for integers. -/
def sortAscInt (l : List Int) : List Int := l.foldr insertAscInt []

/-- `years = sorted(year_counts.keys())`: the distinct valid years in
ascending order. -/
def distinctYears (papers : List Paper) : List Int :=
  sortAscInt (yearList papers).dedup

/-- The mean of the per-year publication counts over a window of years,
as an exact rational (Python computes the same value in float). -/
def meanCountQ (papers : List Paper) (ys : List Int) : ℚ :=
  ((ys.map (fun y => (yearCount papers y : ℚ))).sum) / (ys.length : ℚ)

structure GrowthAnalysis where
  recent_average : ℚ
  earlier_average : ℚ
  growth_rate_percent : ℚ
  trend_direction : String
deriving Repr, DecidableEq

/-- The `growth_analysis` section (lines 104–119): populated only with
at least 2 distinct valid years; `recent_years = years[-3:]`,
`earlier_years = years[:-3] if len(years) > 3 else years[:-1]`. -/
def growthAnalysis (papers : List Paper) : Option GrowthAnalysis :=
  let years := distinctYears papers
  if 2 ≤ years.length then
    let recentYears := years.drop (years.length - 3)
    let earlierYears :=
      if 3 < years.length then years.take (years.length - 3)
      else years.take (years.length - 1)
    let recentAvg := meanCountQ papers recentYears
    let earlierAvg := if earlierYears ≠ [] then meanCountQ papers earlierYears else 0
    let growthRate :=
      if 0 < earlierAvg then (recentAvg - earlierAvg) / earlierAvg * 100 else 0
    some { recent_average := recentAvg
           earlier_average := earlierAvg
           growth_rate_percent := growthRate
           trend_direction :=
             if 5 < growthRate then "growing"
             else if growthRate < -5 then "declining" else "stable" }
  else none

structure TrendsResult where
  publication_trend : List (Int × Nat)
  growth_analysis : Option GrowthAnalysis
deriving Repr, DecidableEq

/-- `AdvancedTrendMonitor.analyze_temporal_trends` (the modelled
fields).  The Python body is wrapped in a `try/except` returning an
error dict; the pure embedded computation cannot raise, so the only
error outcome is the empty-input one of line 58. -/
def analyze_temporal_trends (papers : List Paper) : Except String TrendsResult :=
  if papers.isEmpty then Except.error "No papers provided for temporal analysis"
  else Except.ok
    { publication_trend := (distinctYears papers).map (fun y => (y, yearCount papers y))
      growth_analysis := growthAnalysis papers }

/-- Modelled from the claim's words, for comparison with the source:
`recent_avg` is the mean count of the latest at-most-3 distinct years,
`earlier_avg` the mean count of the years strictly before that recent
window (0 when there are none), `growth_rate_percent` the relative
change in percent (0 when `earlier_avg` is 0), and `trend_direction`
classifies against the ±5 thresholds. -/
def claimGrowth (papers : List Paper) : Option GrowthAnalysis :=
  let years := distinctYears papers
  if 2 ≤ years.length then
    let recentWindow := years.drop (years.length - 3)
    let strictlyEarlier := years.take (years.length - 3)
    let recentAvg := meanCountQ papers recentWindow
    let earlierAvg := if strictlyEarlier ≠ [] then meanCountQ papers strictlyEarlier else 0
    let growthRate :=
      if 0 < earlierAvg then (recentAvg - earlierAvg) / earlierAvg * 100 else 0
    some { recent_average := recentAvg
           earlier_average := earlierAvg
           growth_rate_percent := growthRate
           trend_direction :=
             if 5 < growthRate then "growing"
             else if growthRate < -5 then "declining" else "stable" }
  else none

/-- The claim amended to what the code computes: with more than 3
distinct years the earlier window is the years strictly before the
recent window, but with 2 or 3 distinct years it is all years except
the latest, which then overlaps the recent window. -/
def claimGrowthAmended (papers : List Paper) : Option GrowthAnalysis :=
  let years := distinctYears papers
  if 2 ≤ years.length then
    let recentWindow := years.drop (years.length - 3)
    let earlierWindow :=
      if 3 < years.length then years.take (years.length - 3)
      else years.take (years.length - 1)
    let recentAvg := meanCountQ papers recentWindow
    let earlierAvg := if earlierWindow ≠ [] then meanCountQ papers earlierWindow else 0
    let growthRate :=
      if 0 < earlierAvg then (recentAvg - earlierAvg) / earlierAvg * 100 else 0
    some { recent_average := recentAvg
           earlier_average := earlierAvg
           growth_rate_percent := growthRate
           trend_direction :=
             if 5 < growthRate then "growing"
             else if growthRate < -5 then "declining" else "stable" }
  else none

/-- A paper contributing only a year. -/
def mkYearPaper (t : String) (y : Int) : Paper :=
  { title := some t, authors := [], abstract := none, published_date := "", year := some y,
    doi := none, arxiv_id := none, pmid := none, source := "" }

/-- A corpus with exactly two distinct valid years: one 2020 paper and
three 2021 papers. -/
def twoYearCorpus : List Paper :=
  [mkYearPaper "a" 2020, mkYearPaper "b" 2021, mkYearPaper "c" 2021, mkYearPaper "d" 2021]

/-- A corpus with four distinct valid years at counts 1, 1, 2, 4. -/
def fourYearCorpus : List Paper :=
  [mkYearPaper "a" 2019, mkYearPaper "b" 2020, mkYearPaper "c" 2021, mkYearPaper "d" 2021,
   mkYearPaper "e" 2022, mkYearPaper "f" 2022, mkYearPaper "g" 2022, mkYearPaper "h" 2022]

/-! ### `AdvancedTrendMonitor.detect_research_gaps` (lines 159–282) -/

/-- Does `hay` start with `pat` (on character lists)? -/
def startsWithCharList : List Char → List Char → Bool
  | _, [] => true
  | [], _ :: _ => false
  | a :: as, b :: bs => a = b && startsWithCharList as bs

/-- Does `hay` contain `pat` as a contiguous run? -/
def hasSubstrCharList (pat : List Char) : List Char → Bool
  | [] => startsWithCharList [] pat
  | c :: rest => startsWithCharList (c :: rest) pat || hasSubstrCharList pat rest

/-- Python's `pat in hay` substring test. -/
def pyIn (pat hay : String) : Bool := hasSubstrCharList pat.toList hay.toList

/-- `f"..." .lower()` of title and abstract (line 198). -/
def paperContent (p : Paper) : String :=
  pyLower (strOfOpt p.title ++ " " ++ strOfOpt p.abstract)

/-- The research-area taxonomy (lines 172–182). -/
def area_keywords : List (String × List String) :=
  [("natural_language_processing", ["nlp", "language", "text", "linguistic"]),
   ("computer_vision", ["vision", "image", "visual", "cv"]),
   ("machine_learning", ["ml", "learning", "algorithm", "model"]),
   ("deep_learning", ["deep", "neural", "network", "cnn", "rnn"]),
   ("reinforcement_learning", ["reinforcement", "rl", "agent", "policy"]),
   ("robotics", ["robot", "robotic", "manipulation", "control"]),
   ("healthcare", ["medical", "health", "clinical", "patient"]),
   ("finance", ["financial", "trading", "market", "economic"]),
   ("security", ["security", "privacy", "attack", "defense"])]

/-- The methodology taxonomy (lines 185–194). -/
def method_keywords : List (String × List String) :=
  [("supervised_learning", ["supervised", "classification", "regression"]),
   ("unsupervised_learning", ["unsupervised", "clustering", "dimensionality"]),
   ("semi_supervised", ["semi-supervised", "few-shot", "zero-shot"]),
   ("transfer_learning", ["transfer", "domain adaptation", "fine-tuning"]),
   ("federated_learning", ["federated", "distributed", "decentralized"]),
   ("meta_learning", ["meta", "learning to learn", "few-shot"]),
   ("explainable_ai", ["explainable", "interpretable", "explanation"]),
   ("adversarial", ["adversarial", "robust", "attack"])]

/-- `any(keyword in content for keyword in keywords)` for one paper. -/
def matchesAny (p : Paper) (keywords : List String) : Bool :=
  keywords.any (fun k => pyIn k (paperContent p))

/-- How many papers match a category's keyword list.  The Python loop
increments the category's counter once per matching paper; categories
of the same taxonomy are tested independently. -/
def categoryCount (papers : List Paper) (keywords : List String) : Nat :=
  (papers.filter (fun p => matchesAny p keywords)).length

/-- The data-type heuristic (lines 211–221): an `if/elif/.../else`
chain, so a paper contributes to at most one data type - the first of
text, image, audio, sensor whose keywords occur, else tabular - and
only when `dataset` or `data` occurs at all. -/
def dataTypeOf (p : Paper) : Option String :=
  let content := paperContent p
  if pyIn "dataset" content || pyIn "data" content then
    if ["text", "corpus", "language"].any (fun w => pyIn w content) then some "text"
    else if ["image", "visual", "video"].any (fun w => pyIn w content) then some "image"
    else if ["audio", "speech", "sound"].any (fun w => pyIn w content) then some "audio"
    else if ["sensor", "iot", "time series"].any (fun w => pyIn w content) then some "sensor"
    else some "tabular"
  else none

/-- The five data-type categories. -/
def dataTypeNames : List String := ["text", "image", "audio", "sensor", "tabular"]

/-- How many papers were assigned a given data type. -/
def dataTypeCount (papers : List Paper) (d : String) : Nat :=
  (papers.filter (fun p => dataTypeOf p == some d)).length

/-- Python `str.title()` on ASCII: a letter is upper-cased when the
previous character is not a letter, lower-cased otherwise. -/
def titleCaseGo : Bool → List Char → List Char
  | _, [] => []
  | prevAlpha, c :: rest =>
    (if c.isAlpha then (if prevAlpha then c.toLower else c.toUpper) else c) ::
      titleCaseGo c.isAlpha rest

/-- `key.replace('_', ' ').title()`: the category label as reported in
a gap entry. -/
def displayName (key : String) : String :=
  String.mk (titleCaseGo false (key.toList.map (fun c => if c = '_' then ' ' else c)))

structure GapEntry where
  name : String
  coverage_percent : ℚ
  papers_count : Nat
deriving Repr, DecidableEq

/-- `coverage = (count / total_papers) * 100`, exactly over `ℚ`. -/
def coverageQ (count total : Nat) : ℚ := (count : ℚ) / (total : ℚ) * 100

/-- The gap-reporting loop (lines 232–261) over a counter's items: each
counted category whose coverage is below the threshold becomes an
entry.  The Python `defaultdict` holds exactly the categories matched
by at least one paper (a key is created only by the `+= 1`), so a
category with zero matches is never iterated and never reported; that
is the `c = 0` branch.  Entries here are in taxonomy order rather than
first-match insertion order; the claims concern membership only. -/
def gapList (counts : List (String × Nat)) (thr : ℚ) (total : Nat) : List GapEntry :=
  counts.filterMap (fun nc =>
    if nc.2 = 0 then none
    else if coverageQ nc.2 total < thr then
      some ⟨displayName nc.1, coverageQ nc.2 total, nc.2⟩
    else none)

/-- `methodology_gaps`: threshold 5%. -/
def methodologyGaps (papers : List Paper) : List GapEntry :=
  gapList (method_keywords.map (fun ak => (ak.1, categoryCount papers ak.2))) 5 papers.length

/-- `research_area_gaps`: threshold 10%. -/
def researchAreaGaps (papers : List Paper) : List GapEntry :=
  gapList (area_keywords.map (fun ak => (ak.1, categoryCount papers ak.2))) 10 papers.length

/-- `data_type_gaps`: threshold 15%. -/
def dataTypeGaps (papers : List Paper) : List GapEntry :=
  gapList (dataTypeNames.map (fun d => (d, dataTypeCount papers d))) 15 papers.length

structure GapsResult where
  methodology_gaps : List GapEntry
  research_area_gaps : List GapEntry
  data_type_gaps : List GapEntry
deriving Repr, DecidableEq

/-- `AdvancedTrendMonitor.detect_research_gaps` (the modelled fields;
`interdisciplinary_gaps` and `emerging_gaps` stay empty lists in the
source and the AI analysis needs an external LLM, so they are not
carried).  As with the trend analysis, the only error outcome of the
pure computation is the empty-input one of line 163. -/
def detect_research_gaps (papers : List Paper) : Except String GapsResult :=
  if papers.isEmpty then Except.error "No papers provided for gap analysis"
  else Except.ok
    { methodology_gaps := methodologyGaps papers
      research_area_gaps := researchAreaGaps papers
      data_type_gaps := dataTypeGaps papers }

/-- A paper about robotics only: every area/methodology keyword other
than the robotics ones is absent from its content. -/
def robotPaper : Paper :=
  { title := some "On robots", authors := [], abstract := some "robotic manipulation",
    published_date := "", year := none, doi := none, arxiv_id := none, pmid := none,
    source := "" }

/-- A paper matching only the finance area keywords. -/
def financePaper : Paper :=
  { title := some "financial trading", authors := [], abstract := none,
    published_date := "", year := none, doi := none, arxiv_id := none, pmid := none,
    source := "" }

/-- One finance paper among ten robotics papers: finance coverage is
100/11 percent, below the 10% research-area threshold. -/
def mixedCorpus : List Paper := financePaper :: List.replicate 10 robotPaper

/-- A paper whose content mentions `dataset`, `text` and `image`. -/
def textImagePaper : Paper :=
  { title := some "a dataset of text and image examples", authors := [], abstract := none,
    published_date := "", year := none, doi := none, arxiv_id := none, pmid := none,
    source := "" }

/-! ### Crossref date reconstruction (`unified_fetcher.py` lines 242–254) -/

/-- Python `f"..:04d.."` zero padding for a nonnegative integer. -/
def padZeros (w : Nat) (n : Nat) : String :=
  let s := toString n
  if s.length < w then String.mk (List.replicate (w - s.length) '0') ++ s else s

/-- Year and `published_date` from the first `date-parts` row: year
from the first entry; a zero-padded `Y-M-D` string with missing month
and day defaulting to `01`; empty row leaves both unset. -/
def crossrefDate : List Nat → Option Nat × String
  | [] => (none, "")
  | [y] => (some y, padZeros 4 y ++ "-01-01")
  | [y, m] => (some y, padZeros 4 y ++ "-" ++ padZeros 2 m ++ "-01")
  | y :: m :: d :: _ => (some y, padZeros 4 y ++ "-" ++ padZeros 2 m ++ "-" ++ padZeros 2 d)

/-- `item['published-print'].get('date-parts', [[]])[0]`: indexing the
first row raises `IndexError` on an empty `date-parts` list (caught by
the adapter's outer `try/except`). -/
def crossrefDateFromParts : List (List Nat) → Except String (Option Nat × String)
  | [] => Except.error "IndexError: list index out of range"
  | row :: _ => Except.ok (crossrefDate row)

/-! ## Theorems -/

/-- Identifiers already in the seen set stay in the final seen set. -/
theorem dedupGo_seen_mono (l : List Paper) :
    ∀ seen : List String, ∀ i ∈ seen, i ∈ (dedupGo seen l).1 := by
  induction l with
  | nil => intro seen i hi; simpa [dedupGo] using hi
  | cons p rest ih =>
    intro seen i hi
    simp only [dedupGo]
    split
    · exact ih seen i hi
    · exact ih (seen ++ identifiers p) i (List.mem_append_left _ hi)

/-- After the loop, every paper of the input that has at least one
identifier has one of its identifiers in the final seen set (whether it
was kept or dropped). -/
theorem dedupGo_covers (l : List Paper) :
    ∀ seen : List String, ∀ p ∈ l, identifiers p ≠ [] →
      ∃ i ∈ identifiers p, i ∈ (dedupGo seen l).1 := by
  induction l with
  | nil => intro seen p hp; cases hp
  | cons q rest ih =>
    intro seen p hp hne
    rcases List.mem_cons.mp hp with hpq | hpr
    · subst hpq
      simp only [dedupGo]
      split
      · rename_i hc
        rcases List.any_eq_true.mp hc with ⟨i, hi, hdec⟩
        exact ⟨i, hi, dedupGo_seen_mono rest seen i (by simpa using hdec)⟩
      · rcases List.exists_mem_of_ne_nil _ hne with ⟨i, hi⟩
        exact ⟨i, hi,
          dedupGo_seen_mono rest (seen ++ identifiers p) i (List.mem_append_right _ hi)⟩
    · simp only [dedupGo]
      split
      · exact ih seen p hpr hne
      · exact ih (seen ++ identifiers q) p hpr hne

/-- Splitting the loop over an appended input. -/
theorem dedupGo_append (l₁ l₂ : List Paper) :
    ∀ seen : List String,
      dedupGo seen (l₁ ++ l₂) =
        ((dedupGo (dedupGo seen l₁).1 l₂).1,
         (dedupGo seen l₁).2 ++ (dedupGo (dedupGo seen l₁).1 l₂).2) := by
  induction l₁ with
  | nil => intro seen; simp [dedupGo]
  | cons p rest ih =>
    intro seen
    by_cases hc : (identifiers p).any (fun i => decide (i ∈ seen)) = true
    · simp only [List.cons_append, dedupGo, hc, if_true]
      exact ih seen
    · simp only [List.cons_append, dedupGo, hc, if_false, Bool.false_eq_true, List.append_eq]
      rw [ih (seen ++ identifiers p)]

/-- If every input paper already has a seen identifier, the loop drops
everything and leaves the seen set unchanged. -/
theorem dedupGo_all_dropped (l : List Paper) :
    ∀ seen : List String, (∀ p ∈ l, ∃ i ∈ identifiers p, i ∈ seen) →
      dedupGo seen l = (seen, []) := by
  induction l with
  | nil => intro seen _; simp [dedupGo]
  | cons p rest ih =>
    intro seen h
    have hc : (identifiers p).any (fun i => decide (i ∈ seen)) = true := by
      rcases h p (List.mem_cons_self p rest) with ⟨i, hi, his⟩
      exact List.any_eq_true.mpr ⟨i, hi, by simpa using his⟩
    simp only [dedupGo, hc, if_true]
    exact ih seen (fun q hq => h q (List.mem_cons_of_mem _ hq))

/-- C2 counterexample: a paper with no identifier tokens at all is kept
every time it occurs, so deduplicating the doubled list differs from
deduplicating the single list. -/
theorem dedup_double_cex :
    deduplicate_papers [blankPaper, blankPaper] ≠ deduplicate_papers [blankPaper] := by
  decide

/-- C2 (amended): for input lists in which every paper yields at least
one deduplication identifier token, deduplication is idempotent under
exact duplication of the whole input:
`deduplicate_papers (P ++ P) = deduplicate_papers P`. -/
theorem dedup_self_append (P : List Paper)
    (h : ∀ p ∈ P, identifiers p ≠ []) :
    deduplicate_papers (P ++ P) = deduplicate_papers P := by
  unfold deduplicate_papers
  rw [dedupGo_append]
  rw [dedupGo_all_dropped P (dedupGo [] P).1
    (fun p hp => dedupGo_covers P [] p hp (h p hp))]
  simp

/-- C2 amended-theorem witness at a concrete one-paper list. -/
theorem dedup_self_append_witness :
    deduplicate_papers ([mkDoiPaper "A" "10.1/x" "ArXiv"] ++ [mkDoiPaper "A" "10.1/x" "ArXiv"])
      = deduplicate_papers [mkDoiPaper "A" "10.1/x" "ArXiv"] :=
  dedup_self_append [mkDoiPaper "A" "10.1/x" "ArXiv"] (by decide)

/-- C3: two papers whose DOIs are non-empty after stripping and equal up
to ASCII case collapse to exactly the first record. -/
theorem dedup_doi_first_wins (a b : Paper)
    (ha : pyStrip (strOfOpt a.doi) ≠ "")
    (hb : pyStrip (strOfOpt b.doi) ≠ "")
    (heq : pyLower (pyStrip (strOfOpt a.doi)) = pyLower (pyStrip (strOfOpt b.doi))) :
    deduplicate_papers [a, b] = [a] := by
  have hda : ("doi:" ++ pyLower (pyStrip (strOfOpt a.doi))) ∈ identifiers a := by
    simp [identifiers, ha]
  have hdb : ("doi:" ++ pyLower (pyStrip (strOfOpt a.doi))) ∈ identifiers b := by
    rw [heq]
    simp [identifiers, hb]
  have h1 : (identifiers a).any (fun i => decide (i ∈ ([] : List String))) = false := by
    simp
  have h2 : (identifiers b).any (fun i => decide (i ∈ identifiers a)) = true :=
    List.any_eq_true.mpr ⟨_, hdb, by simpa using hda⟩
  unfold deduplicate_papers
  simp [dedupGo, h1, h2]

/-- C3 witness at concrete papers whose DOIs differ in case and spacing. -/
theorem dedup_doi_first_wins_witness :
    deduplicate_papers
      [mkDoiPaper "A" "10.1/X" "ArXiv", mkDoiPaper "B" " 10.1/x " "PubMed"]
      = [mkDoiPaper "A" "10.1/X" "ArXiv"] :=
  dedup_doi_first_wins (mkDoiPaper "A" "10.1/X" "ArXiv") (mkDoiPaper "B" " 10.1/x " "PubMed")
    (by decide) (by decide) (by decide)

/-- C10: a paper whose doi, arxiv_id and pmid strip to empty and whose
title is empty or exactly `no title` after stripping and lower-casing
yields no identifier tokens, is always kept by the loop, contributes
nothing to the seen set, and two identical such papers are both
retained. -/
theorem dedup_keeps_identifierless (p : Paper)
    (h1 : pyStrip (strOfOpt p.doi) = "")
    (h2 : pyStrip (strOfOpt p.arxiv_id) = "")
    (h3 : pyStrip (strOfOpt p.pmid) = "")
    (h4 : pyLower (pyStrip (strOfOpt p.title)) = "" ∨
          pyLower (pyStrip (strOfOpt p.title)) = "no title") :
    identifiers p = [] ∧
    (∀ (seen : List String) (rest : List Paper),
      dedupGo seen (p :: rest) = ((dedupGo seen rest).1, p :: (dedupGo seen rest).2)) ∧
    deduplicate_papers [p, p] = [p, p] := by
  have hid : identifiers p = [] := by
    rcases h4 with h4 | h4 <;> simp [identifiers, h1, h2, h3, h4]
  refine ⟨hid, ?_, ?_⟩
  · intro seen rest
    simp [dedupGo, hid]
  · unfold deduplicate_papers
    simp [dedupGo, hid]

/-- C10 witness at the fully blank paper record. -/
theorem dedup_keeps_identifierless_witness :
    deduplicate_papers [blankPaper, blankPaper] = [blankPaper, blankPaper] :=
  (dedup_keeps_identifierless blankPaper (by decide) (by decide) (by decide)
    (by decide)).2.2

theorem length_insertDateDesc (p : Paper) (l : List Paper) :
    (insertDateDesc p l).length = l.length + 1 := by
  induction l with
  | nil => rfl
  | cons q rest ih =>
    simp only [insertDateDesc]
    split <;> simp [ih]

theorem length_sortDateDesc (l : List Paper) : (sortDateDesc l).length = l.length := by
  suffices h : ∀ acc : List Paper,
      (l.foldl (fun acc p => insertDateDesc p acc) acc).length = l.length + acc.length by
    simpa using h []
  induction l with
  | nil => intro acc; simp
  | cons p rest ih =>
    intro acc
    simp only [List.foldl_cons, ih, length_insertDateDesc, List.length_cons]
    omega

/-- C1: whenever `search_papers` returns a result list (rather than
raising), that list has length at most `max_results`, whatever the
sources produced. -/
theorem search_papers_count_le (query : String) (maxResults : Nat) (sources : List String)
    (sortBy : String) (fetch : String → Nat → Except String (List Paper))
    (l : List Paper) (h : search_papers query maxResults sources sortBy fetch = Except.ok l) :
    l.length ≤ maxResults := by
  unfold search_papers at h
  split at h
  · cases h
  · injection h with h
    subst h
    exact List.length_take_le _ _

/-- C1 witness: a concrete search over one source returning one paper. -/
theorem search_papers_count_le_witness :
    ([mkDoiPaper "A" "10.1/x" "ArXiv"] : List Paper).length ≤ 3 :=
  search_papers_count_le "q" 3 ["arxiv"] "relevance"
    (fun _ _ => Except.ok [mkDoiPaper "A" "10.1/x" "ArXiv"])
    [mkDoiPaper "A" "10.1/x" "ArXiv"] (by rfl)

theorem gatherPapers_override_failed (fetch : String → Nat → Except String (List Paper))
    (s : String) (n : Nat) (hfail : ∀ m, ∃ e, fetch s m = Except.error e) :
    ∀ srcs : List String,
      gatherPapers fetch n srcs =
        gatherPapers (overrideFetch fetch s (fun _ => Except.ok [])) n srcs := by
  intro srcs
  induction srcs with
  | nil => rfl
  | cons t rest ih =>
    simp only [gatherPapers, ih]
    congr 1
    unfold sourceResults overrideFetch
    by_cases hts : t = s
    · subst hts
      rcases hfail n with ⟨e, he⟩
      rw [he]
      simp
    · simp [hts]

/-- C4: when one source adapter fails on every call, `search_papers`
returns exactly what it would return had that adapter succeeded with an
empty list (the failing source contributes zero papers, the others'
deduplicated results survive), and with a nonempty source list the
whole search still returns a result rather than raising. -/
theorem search_papers_failing_source (query : String) (maxResults : Nat)
    (sources : List String) (sortBy : String)
    (fetch : String → Nat → Except String (List Paper)) (s : String)
    (hfail : ∀ m, ∃ e, fetch s m = Except.error e) :
    search_papers query maxResults sources sortBy fetch =
      search_papers query maxResults sources sortBy
        (overrideFetch fetch s (fun _ => Except.ok [])) ∧
    (sources ≠ [] →
      isOkE (search_papers query maxResults sources sortBy fetch) = true) := by
  constructor
  · unfold search_papers
    split
    · rfl
    · simp only [gatherPapers_override_failed fetch s
        (max 1 (maxResults / sources.length)) hfail sources]
  · intro hne
    unfold search_papers
    split
    · rename_i hz
      exact absurd (List.length_eq_zero.mp hz) hne
    · rfl

/-- C4 witness: with `arxiv` down, the two-source search equals the
search where `arxiv` returns nothing, and it still returns ok. -/
theorem search_papers_failing_source_witness :
    search_papers "q" 4 ["arxiv", "crossref"] "relevance" fetchArxivDown =
      search_papers "q" 4 ["arxiv", "crossref"] "relevance"
        (overrideFetch fetchArxivDown "arxiv" (fun _ => Except.ok [])) ∧
    isOkE (search_papers "q" 4 ["arxiv", "crossref"] "relevance" fetchArxivDown) = true :=
  ⟨(search_papers_failing_source "q" 4 ["arxiv", "crossref"] "relevance" fetchArxivDown
      "arxiv" (fun _ => ⟨"ConnectionError", rfl⟩)).1,
   (search_papers_failing_source "q" 4 ["arxiv", "crossref"] "relevance" fetchArxivDown
      "arxiv" (fun _ => ⟨"ConnectionError", rfl⟩)).2 (by decide)⟩

/-- C5 counterexample: on a corpus with exactly two distinct valid
years (2020×1, 2021×3) the code's earlier window is `[2020]` - all
years but the latest, overlapping the recent window - rather than the
empty set of years strictly before the recent window, so the code
reports 100% growth / `growing` where the claim's description yields
`earlier_avg = 0`, growth 0 and `stable`. -/
theorem growth_two_year_cex :
    growthAnalysis twoYearCorpus ≠ claimGrowth twoYearCorpus ∧
    growthAnalysis twoYearCorpus =
      some { recent_average := 2, earlier_average := 1,
             growth_rate_percent := 100, trend_direction := "growing" } ∧
    claimGrowth twoYearCorpus =
      some { recent_average := 2, earlier_average := 0,
             growth_rate_percent := 0, trend_direction := "stable" } := by
  have hy : distinctYears twoYearCorpus = [2020, 2021] := by decide
  have hc0 : yearCount twoYearCorpus 2020 = 1 := by decide
  have hc1 : yearCount twoYearCorpus 2021 = 3 := by decide
  have hrec : meanCountQ twoYearCorpus [2020, 2021] = 2 := by
    norm_num [meanCountQ, hc0, hc1]
  have hear : meanCountQ twoYearCorpus [2020] = 1 := by
    norm_num [meanCountQ, hc0]
  have hga : growthAnalysis twoYearCorpus =
      some { recent_average := 2, earlier_average := 1,
             growth_rate_percent := 100, trend_direction := "growing" } := by
    simp only [growthAnalysis, hy]
    norm_num [hrec, hear]
  have hcg : claimGrowth twoYearCorpus =
      some { recent_average := 2, earlier_average := 0,
             growth_rate_percent := 0, trend_direction := "stable" } := by
    simp only [claimGrowth, hy]
    norm_num [hrec]
  refine ⟨?_, hga, hcg⟩
  rw [hga, hcg]
  intro hcontra
  injection hcontra with hcontra
  exact absurd (congrArg GrowthAnalysis.trend_direction hcontra) (by decide)

/-- C5 (amended): the growth analysis embedded in
`analyze_temporal_trends` computes the claim's quantities except that
with 2 or 3 distinct years the earlier window is all years but the
latest (overlapping the recent window); with more than 3 distinct years
the original claim's description (earlier = strictly before the recent
window) is exact. -/
theorem growth_analysis_amended (papers : List Paper) :
    growthAnalysis papers = claimGrowthAmended papers ∧
    (3 < (distinctYears papers).length → growthAnalysis papers = claimGrowth papers) := by
  constructor
  · rfl
  · intro h3
    have h2 : 2 ≤ (distinctYears papers).length := by omega
    simp only [growthAnalysis, claimGrowth, h2, h3, if_true, if_pos]

/-- C5 amended-theorem witness on a four-distinct-year corpus. -/
theorem growth_analysis_amended_witness :
    growthAnalysis fourYearCorpus = claimGrowth fourYearCorpus :=
  (growth_analysis_amended fourYearCorpus).2 (by decide)

/-- C7: on the empty paper list both analyses return their structured
empty-input error (the embedded computations are total, so no other
exception escapes), and on any non-empty list both return an ok result
instead of that error. -/
theorem analysis_empty_input (papers : List Paper) :
    analyze_temporal_trends [] = Except.error "No papers provided for temporal analysis" ∧
    detect_research_gaps [] = Except.error "No papers provided for gap analysis" ∧
    (papers ≠ [] →
      isOkE (analyze_temporal_trends papers) = true ∧
      isOkE (detect_research_gaps papers) = true) := by
  refine ⟨rfl, rfl, fun hne => ?_⟩
  have he : papers.isEmpty = false := by
    cases papers with
    | nil => exact absurd rfl hne
    | cons a l => rfl
  constructor <;> simp [analyze_temporal_trends, detect_research_gaps, he, isOkE]

/-- C7 witness on a one-paper corpus. -/
theorem analysis_empty_input_witness :
    isOkE (analyze_temporal_trends [blankPaper]) = true ∧
    isOkE (detect_research_gaps [blankPaper]) = true :=
  (analysis_empty_input [blankPaper]).2.2 (by decide)

/-- C6 counterexample: on a one-paper robotics corpus the finance
category is matched by zero papers, yet `research_area_gaps` (and every
other gap list) is empty - a zero-coverage category never appears,
because the Python counter dict holds only categories with at least one
match.  (The claim demands a finance entry with coverage 0.) -/
theorem gap_zero_coverage_cex :
    methodologyGaps [robotPaper] = [] ∧
    researchAreaGaps [robotPaper] = [] ∧
    dataTypeGaps [robotPaper] = [] ∧
    categoryCount [robotPaper] ["financial", "trading", "market", "economic"] = 0 := by
  refine ⟨by decide, ?_, by decide, by decide⟩
  have hmap : area_keywords.map (fun ak => (ak.1, categoryCount [robotPaper] ak.2)) =
      [("natural_language_processing", 0), ("computer_vision", 0), ("machine_learning", 0),
       ("deep_learning", 0), ("reinforcement_learning", 0), ("robotics", 1),
       ("healthcare", 0), ("finance", 0), ("security", 0)] := by decide
  show gapList (area_keywords.map (fun ak => (ak.1, categoryCount [robotPaper] ak.2))) 10
      ([robotPaper] : List Paper).length = []
  rw [hmap]
  norm_num [gapList, List.filterMap_cons, coverageQ]

/-- Every reported gap entry comes from a category with at least one
matching paper and coverage below the threshold. -/
theorem gapList_mem_bound (counts : List (String × Nat)) (thr : ℚ) (total : Nat)
    (e : GapEntry) (he : e ∈ gapList counts thr total) :
    1 ≤ e.papers_count ∧ e.coverage_percent < thr := by
  rcases List.mem_filterMap.mp he with ⟨nc, _, heq⟩
  split at heq
  · cases heq
  · split at heq
    · rename_i h0 hcov
      injection heq with heq
      subst heq
      exact ⟨Nat.one_le_iff_ne_zero.mpr h0, hcov⟩
    · cases heq

/-- A category's gap entry is present exactly when the category was
matched at least once and its coverage is below the threshold. -/
theorem gapList_mem_iff (counts : List (String × Nat)) (thr : ℚ) (total : Nat)
    (name : String) (c : Nat) (hmem : (name, c) ∈ counts) :
    ((⟨displayName name, coverageQ c total, c⟩ : GapEntry) ∈ gapList counts thr total) ↔
      (1 ≤ c ∧ coverageQ c total < thr) := by
  constructor
  · intro h
    simpa using gapList_mem_bound counts thr total _ h
  · rintro ⟨h1, h2⟩
    refine List.mem_filterMap.mpr ⟨(name, c), hmem, ?_⟩
    have h0 : ¬((name, c).2 = 0) := by
      simpa using Nat.one_le_iff_ne_zero.mp h1
    simp [h0, h2]

/-- C6 (amended): in every taxonomy a category appears in its gap list
iff it was matched by at least one paper and its coverage is below the
taxonomy's threshold (5% / 10% / 15%); in particular a category with
zero matches - coverage 0% - never appears, and a category at or above
its threshold (robotics at 100%) is excluded. -/
theorem gap_lists_characterized (papers : List Paper) :
    (∀ e ∈ methodologyGaps papers, 1 ≤ e.papers_count ∧ e.coverage_percent < 5) ∧
    (∀ e ∈ researchAreaGaps papers, 1 ≤ e.papers_count ∧ e.coverage_percent < 10) ∧
    (∀ e ∈ dataTypeGaps papers, 1 ≤ e.papers_count ∧ e.coverage_percent < 15) ∧
    (∀ ak ∈ method_keywords,
      (((⟨displayName ak.1, coverageQ (categoryCount papers ak.2) papers.length,
          categoryCount papers ak.2⟩ : GapEntry) ∈ methodologyGaps papers) ↔
        (1 ≤ categoryCount papers ak.2 ∧
          coverageQ (categoryCount papers ak.2) papers.length < 5))) ∧
    (∀ ak ∈ area_keywords,
      (((⟨displayName ak.1, coverageQ (categoryCount papers ak.2) papers.length,
          categoryCount papers ak.2⟩ : GapEntry) ∈ researchAreaGaps papers) ↔
        (1 ≤ categoryCount papers ak.2 ∧
          coverageQ (categoryCount papers ak.2) papers.length < 10))) ∧
    (∀ d ∈ dataTypeNames,
      (((⟨displayName d, coverageQ (dataTypeCount papers d) papers.length,
          dataTypeCount papers d⟩ : GapEntry) ∈ dataTypeGaps papers) ↔
        (1 ≤ dataTypeCount papers d ∧
          coverageQ (dataTypeCount papers d) papers.length < 15))) := by
  refine ⟨fun e he => gapList_mem_bound _ _ _ e he,
          fun e he => gapList_mem_bound _ _ _ e he,
          fun e he => gapList_mem_bound _ _ _ e he,
          fun ak hak => gapList_mem_iff _ _ _ ak.1 (categoryCount papers ak.2)
            (List.mem_map.mpr ⟨ak, hak, rfl⟩),
          fun ak hak => gapList_mem_iff _ _ _ ak.1 (categoryCount papers ak.2)
            (List.mem_map.mpr ⟨ak, hak, rfl⟩),
          fun d hd => gapList_mem_iff _ _ _ d (dataTypeCount papers d)
            (List.mem_map.mpr ⟨d, hd, rfl⟩)⟩

/-- C6 amended-theorem witness: one finance paper among ten robotics
papers puts finance below the 10% threshold, so its entry is present. -/
theorem gap_lists_characterized_witness :
    (⟨displayName "finance",
      coverageQ (categoryCount mixedCorpus ["financial", "trading", "market", "economic"])
        mixedCorpus.length,
      categoryCount mixedCorpus ["financial", "trading", "market", "economic"]⟩ : GapEntry)
      ∈ researchAreaGaps mixedCorpus := by
  refine ((gap_lists_characterized mixedCorpus).2.2.2.2.1
      ("finance", ["financial", "trading", "market", "economic"]) (by decide)).mpr ?_
  have hcc : categoryCount mixedCorpus ["financial", "trading", "market", "economic"] = 1 := by
    decide
  have hlen : mixedCorpus.length = 11 := by decide
  rw [hcc, hlen]
  exact ⟨le_refl 1, by norm_num [coverageQ]⟩

/-- C8 counterexample: a paper mentioning `dataset`, `text` and `image`
is counted for the text data type only - the `elif` chain assigns at
most one data type - whereas the claim demands both counts increase. -/
theorem datatype_exclusive_cex :
    dataTypeCount [textImagePaper] "text" = 1 ∧
    dataTypeCount [textImagePaper] "image" = 0 ∧
    pyIn "image" (paperContent textImagePaper) = true ∧
    pyIn "dataset" (paperContent textImagePaper) = true := by
  refine ⟨?_, ?_, ?_, ?_⟩ <;> decide

/-- C8 (amended): within the methodology and research-area taxonomies a
paper is counted once in every category it matches; but the data-type
taxonomy is an exclusive `if/elif` chain: a paper contributes to exactly
the single type `dataTypeOf` selects, to no other type, and a paper
whose content has `data` and `text` keywords is assigned the text type
(so a text-and-image paper increments only the text count). -/
theorem category_counting_amended (p : Paper) (papers : List Paper) :
    (∀ kws : List String,
      categoryCount (p :: papers) kws =
        (if matchesAny p kws then 1 else 0) + categoryCount papers kws) ∧
    (∀ d : String,
      dataTypeCount (p :: papers) d =
        (if dataTypeOf p == some d then 1 else 0) + dataTypeCount papers d) ∧
    (∀ d d' : String, dataTypeOf p = some d → d' ≠ d →
      dataTypeCount (p :: papers) d' = dataTypeCount papers d') ∧
    (pyIn "data" (paperContent p) = true → pyIn "text" (paperContent p) = true →
      dataTypeOf p = some "text") := by
  refine ⟨?_, ?_, ?_, ?_⟩
  · intro kws
    by_cases hm : matchesAny p kws
    · simp [categoryCount, List.filter_cons, hm, Nat.add_comm]
    · simp [categoryCount, List.filter_cons, hm]
  · intro d
    by_cases hd : dataTypeOf p == some d
    · simp [dataTypeCount, List.filter_cons, hd, Nat.add_comm]
    · simp [dataTypeCount, List.filter_cons, hd]
  · intro d d' hd hne
    have hb : (dataTypeOf p == some d') = false := by
      simp [hd, Option.some_inj]
      exact fun h => hne h.symm
    simp [dataTypeCount, List.filter_cons, hb]
  · intro h1 h2
    simp [dataTypeOf, h1, h2]

/-- C8 amended-theorem witness: the text-and-image paper is assigned
the text data type. -/
theorem category_counting_amended_witness :
    dataTypeOf textImagePaper = some "text" :=
  (category_counting_amended textImagePaper []).2.2.2 (by decide) (by decide)

/-- C9: a Crossref item with `date-parts: [[2021, 6]]` parses to year
2021 and `published_date` `2021-06-01`; in general a 2-element row
`[y, m]` yields the zero-padded `Y-M-01` string, the missing day
defaulting to `01`. -/
theorem crossref_two_part_date :
    crossrefDateFromParts [[2021, 6]] = Except.ok (some 2021, "2021-06-01") ∧
    ∀ y m : Nat,
      crossrefDate [y, m] = (some y, padZeros 4 y ++ "-" ++ padZeros 2 m ++ "-01") :=
  ⟨rfl, fun _ _ => rfl⟩
